import Mathlib

/-!
Shallow embedding of the dnssync_nc DNS client (DNSRecords.py and
NetcupConnection.py).  JSON scalar values are modelled by an inductive
type, wire dictionaries by ordered association lists (Python dicts keep
insertion order), and Python exceptions by Option/Except results.
-/

namespace Dnssync

/-- A JSON scalar value as it occurs in the record wire schema. -/
inductive JsonValue where
  | null : JsonValue
  | str (s : String) : JsonValue
  | int (n : Int) : JsonValue
  | bool (b : Bool) : JsonValue
deriving DecidableEq, Repr

/-- A wire dictionary of scalar values (insertion-ordered, like a Python dict). -/
abbrev Payload : Type := List (String × JsonValue)

/-- Decimal digits to a Nat accumulator; any non-digit character fails. -/
def parseDigits : List Char → Nat → Option Nat
  | [], acc => some acc
  | c :: cs, acc =>
      if c.isDigit then parseDigits cs (acc * 10 + (c.toNat - 48)) else none

/-- Python int(string): an optional sign followed by at least one decimal
digit; anything else raises ValueError (none). -/
def pyIntOfString (s : String) : Option Int :=
  match s.data with
  | [] => none
  | '-' :: [] => none
  | '-' :: cs => (parseDigits cs 0).map (fun n => -(n : Int))
  | '+' :: [] => none
  | '+' :: cs => (parseDigits cs 0).map (fun n => (n : Int))
  | cs => (parseDigits cs 0).map (fun n => (n : Int))

/-- Python int(x) on a JSON scalar: ints pass through, strings are parsed
(ValueError becomes none), bools coerce to 0/1, None raises TypeError
(none). -/
def pyInt : JsonValue → Option Int
  | JsonValue.int n => some n
  | JsonValue.str s => pyIntOfString s
  | JsonValue.bool b => some (if b then 1 else 0)
  | JsonValue.null => none

/-- Python truthiness of dict.get(key): an absent key gives None (falsy). -/
def truthy : Option JsonValue → Bool
  | none => false
  | some JsonValue.null => false
  | some (JsonValue.bool b) => b
  | some (JsonValue.int n) => n != 0
  | some (JsonValue.str s) => s != ""

/-- Extract a string value; non-strings fail. -/
def asStr : JsonValue → Option String
  | JsonValue.str s => some s
  | _ => none

/-- Optional integer to JSON (Python None becomes JSON null). -/
def JsonValue.ofOptInt : Option Int → JsonValue
  | none => JsonValue.null
  | some n => JsonValue.int n

/-- DNSRecord.__init__: record_id, record_type, hostname, destination,
priority as passed; the _delete flag starts false (field `deleted` here,
matching the `deleted` property wrapping `self._delete`). -/
structure DNSRecord where
  record_id : Option Int
  record_type : String
  hostname : String
  destination : String
  priority : Option Int := none
  deleted : Bool := false
deriving DecidableEq, Repr

/-- DNSRecord._cmpkey: the tuple (type, hostname, destination, priority). -/
def DNSRecord.cmpkey (r : DNSRecord) : String × String × String × Option Int :=
  (r.record_type, r.hostname, r.destination, r.priority)

/-- DNSRecord.new classmethod: id-less record; MX with no priority defaults
the priority to 10. -/
def DNSRecord.new (record_type hostname destination : String)
    (priority : Option Int) : DNSRecord :=
  let priority :=
    if record_type.toUpper = "MX" then
      if priority = none then some 10 else priority
    else priority
  { record_id := none, record_type := record_type, hostname := hostname,
    destination := destination, priority := priority }

/-- DNSRecord.delete: sets the delete flag. -/
def DNSRecord.delete (r : DNSRecord) : DNSRecord :=
  { r with deleted := true }

/-- DNSRecord.deserialize: priority parsed via int() with the 0 sentinel
mapped to None; id parsed via int(); a truthy `delete` key marks the
record deleted.  Failures of int() or missing/ill-typed keys give none. -/
def DNSRecord.deserialize (data : Payload) : Option DNSRecord := do
  let priority ←
    match List.lookup "priority" data with
    | some v => do
        let p ← pyInt v
        pure (if p = 0 then none else some p)
    | none => pure (none : Option Int)
  let idv ← List.lookup "id" data
  let record_id ← pyInt idv
  let tv ← List.lookup "type" data
  let record_type ← asStr tv
  let hv ← List.lookup "hostname" data
  let hostname ← asStr hv
  let dv ← List.lookup "destination" data
  let destination ← asStr dv
  let record : DNSRecord :=
    { record_id := some record_id, record_type := record_type,
      hostname := hostname, destination := destination, priority := priority }
  pure (if truthy (List.lookup "delete" data) then record.delete else record)

/-- DNSRecord.serialize: the omit sentinel (none) for a deleted id-less
record, otherwise the wire dict with `state` always null and `priority`
present only when not None. -/
def DNSRecord.serialize (r : DNSRecord) : Option Payload :=
  if r.deleted ∧ r.record_id = none then
    none
  else
    some (
      [("id", JsonValue.ofOptInt r.record_id),
       ("type", JsonValue.str r.record_type),
       ("hostname", JsonValue.str r.hostname),
       ("destination", JsonValue.str r.destination),
       ("deleterecord", JsonValue.bool r.deleted),
       ("state", JsonValue.null)]
      ++ (match r.priority with
          | some p => [("priority", JsonValue.int p)]
          | none => []))

/-- DNSRecord.__eq__: isinstance check plus _cmpkey comparison; restricted
to DNSRecord arguments this is _cmpkey equality. -/
def DNSRecord.pyEq (a b : DNSRecord) : Bool :=
  a.cmpkey = b.cmpkey

/-- DNSRecord.__hash__: hash of _cmpkey (any deterministic function of the
tuple models Python hash here). -/
def DNSRecord.pyHash (r : DNSRecord) : UInt64 :=
  hash r.cmpkey

/-- A dynamically typed argument as Python sees it: either a DNSRecord or
some other object. -/
inductive PyObject where
  | record (r : DNSRecord) : PyObject
  | other (v : JsonValue) : PyObject
deriving DecidableEq, Repr

/-- DNSRecordSet.__init__: a domain name and an insertion-ordered list. -/
structure DNSRecordSet where
  domainname : String
  records : List DNSRecord := []
deriving DecidableEq, Repr

/-- DNSRecordSet.delete_all: marks every contained record deleted. -/
def DNSRecordSet.delete_all (rs : DNSRecordSet) : DNSRecordSet :=
  { rs with records := rs.records.map DNSRecord.delete }

/-- DNSRecordSet.delete_hostname: marks deleted exactly the records whose
hostname equals the argument. -/
def DNSRecordSet.delete_hostname (rs : DNSRecordSet) (hostname : String) :
    DNSRecordSet :=
  let mark := fun (r : DNSRecord) => if r.hostname = hostname then r.delete else r
  { rs with records := rs.records.map mark }

/-- Outcome of DNSRecordSet.add: the state after the call and the value
returned (none when the isinstance assertion raised). -/
structure AddResult where
  state : DNSRecordSet
  returned : Option DNSRecordSet
deriving DecidableEq, Repr

/-- DNSRecordSet.add: asserts the argument is a DNSRecord; on success
appends it and returns self (the updated set). -/
def DNSRecordSet.add (rs : DNSRecordSet) (x : PyObject) : AddResult :=
  match x with
  | PyObject.record r =>
      let rs2 : DNSRecordSet := { rs with records := rs.records ++ [r] }
      { state := rs2, returned := some rs2 }
  | PyObject.other _ =>
      { state := rs, returned := none }

/-- The set-level wire dictionary: the `dnsrecords` key holds a list of
record payloads. -/
abbrev SetPayload : Type := List (String × List Payload)

/-- DNSRecordSet.deserialize: reads data["dnsrecords"] and deserializes
each element in order; any record failure fails the whole call. -/
def DNSRecordSet.deserialize (domainname : String) (data : SetPayload) :
    Option DNSRecordSet := do
  let recs ← List.lookup "dnsrecords" data
  let records ← recs.mapM DNSRecord.deserialize
  pure { domainname := domainname, records := records }

/-- DNSRecordSet.serialize: maps records through DNSRecord.serialize, drops
the omit sentinels, wraps as the dnsrecords dictionary. -/
def DNSRecordSet.serialize (rs : DNSRecordSet) : SetPayload :=
  let records := rs.records.map DNSRecord.serialize
  let records := records.filterMap id
  [("dnsrecords", records)]

/-- The shape of the value NetcupConnection._action returns: the HTTP
status code together with the fields of the parsed JSON body that the
callers read (data["status"], data["longmessage"], data["responsedata"]). -/
structure ApiResponse where
  status : Int
  dataStatus : String
  longmessage : String
  responsedata : SetPayload
deriving DecidableEq, Repr

/-- The connection state the session-scoped methods depend on: the session
id, None until a successful login. -/
structure NetcupConnection where
  session_id : Option String
deriving DecidableEq, Repr

/-- NetcupConnection._session_action: without a session id it prints a
warning to stderr (the Bool) and returns None; otherwise it augments the
params and performs the action, whose network response is the parameter. -/
def NetcupConnection.session_action (conn : NetcupConnection)
    (response : ApiResponse) : Bool × Option ApiResponse :=
  match conn.session_id with
  | none => (true, none)
  | some _ => (false, some response)

/-- Exceptions the connection methods can raise. -/
inductive PyExc where
  | typeError : PyExc
  | serverResponseError (msg : String) : PyExc
  | lookupError : PyExc
deriving DecidableEq, Repr

/-- The outcome of a Python call: a returned value or a raised exception. -/
inductive PyResult (A : Type) where
  | ok (a : A) : PyResult A
  | raised (e : PyExc) : PyResult A
deriving DecidableEq, Repr

/-- NetcupConnection.logout: returns the result of _session_action directly
(warning flag, and None when there is no session). -/
def NetcupConnection.logout (conn : NetcupConnection) (response : ApiResponse) :
    Bool × Option ApiResponse :=
  conn.session_action response

/-- NetcupConnection.list_all_domains: returns the result of _session_action
directly. -/
def NetcupConnection.list_all_domains (conn : NetcupConnection)
    (response : ApiResponse) : Bool × Option ApiResponse :=
  conn.session_action response

/-- NetcupConnection.info_dns_records: subscripts the _session_action
result (a TypeError when it is None), raises ServerResponseError on a
non-200 HTTP status or a data status other than success, otherwise
deserializes responsedata. -/
def NetcupConnection.info_dns_records (conn : NetcupConnection)
    (domainname : String) (response : ApiResponse) :
    PyResult DNSRecordSet :=
  match (conn.session_action response).2 with
  | none => PyResult.raised PyExc.typeError
  | some resp =>
      if resp.status ≠ 200 then
        PyResult.raised (PyExc.serverResponseError
          "Unable to retrieve DNS records (no HTTP 200):")
      else if resp.dataStatus ≠ "success" then
        PyResult.raised (PyExc.serverResponseError
          ("Unable to retrieve DNS records (no success status): "
            ++ resp.longmessage))
      else
        match DNSRecordSet.deserialize domainname resp.responsedata with
        | some rs => PyResult.ok rs
        | none => PyResult.raised PyExc.lookupError

/-- NetcupConnection.update_dns_records, with the condition of the source kept
verbatim: it returns the deserialized set when the HTTP status is 200 OR
the data status differs from ok, and raises only otherwise. -/
def NetcupConnection.update_dns_records (conn : NetcupConnection)
    (dns_records : DNSRecordSet) (response : ApiResponse) :
    PyResult DNSRecordSet :=
  match (conn.session_action response).2 with
  | none => PyResult.raised PyExc.typeError
  | some resp =>
      if resp.status = 200 ∨ resp.dataStatus ≠ "ok" then
        match DNSRecordSet.deserialize dns_records.domainname resp.responsedata with
        | some rs => PyResult.ok rs
        | none => PyResult.raised PyExc.lookupError
      else
        PyResult.raised (PyExc.serverResponseError "Unable to update DNS records:")

/-- DNSRecord.serialize as a state-threading call, translated statement by
statement: both branches only read fields, so the record is passed through. -/
def DNSRecord.serializeSt (r : DNSRecord) : DNSRecord × Option Payload :=
  if r.deleted ∧ r.record_id = none then
    (r, none)
  else
    let result : Payload :=
      [("id", JsonValue.ofOptInt r.record_id),
       ("type", JsonValue.str r.record_type),
       ("hostname", JsonValue.str r.hostname),
       ("destination", JsonValue.str r.destination),
       ("deleterecord", JsonValue.bool r.deleted),
       ("state", JsonValue.null)]
    let result :=
      match r.priority with
      | some p => result ++ [("priority", JsonValue.int p)]
      | none => result
    (r, some result)

/-- DNSRecordSet.serialize as a state-threading call: the comprehension
calls serialize on each record, threading the state of every record, then
None results are filtered out and the rest wrapped. -/
def DNSRecordSet.serializeSt (rs : DNSRecordSet) : DNSRecordSet × SetPayload :=
  let step := rs.records.map DNSRecord.serializeSt
  let records := (step.map Prod.snd).filterMap id
  ({ rs with records := step.map Prod.fst }, [("dnsrecords", records)])

/-- C5: DNSRecord.new builds an id-less, undeleted record whose priority is
10 exactly when the uppercased type is MX and no priority was passed, and
the passed priority (including None) otherwise; the remaining fields are
taken verbatim. -/
theorem new_record_priority (t h d : String) (p : Option Int) :
    DNSRecord.new t h d p =
      { record_id := none, record_type := t, hostname := h, destination := d,
        priority := if t.toUpper = "MX" ∧ p = none then some 10 else p,
        deleted := false } := by
  by_cases h1 : t.toUpper = "MX" <;> by_cases h2 : p = none <;>
    simp [DNSRecord.new, h1, h2]

/-- C6: Python equality of records is exactly agreement of the
(type, hostname, destination, priority) tuple; it never depends on
record_id or the delete flag, and equal records hash equally. -/
theorem structural_equality (a b : DNSRecord) :
    (DNSRecord.pyEq a b = true ↔
      (a.record_type = b.record_type ∧ a.hostname = b.hostname ∧
       a.destination = b.destination ∧ a.priority = b.priority))
    ∧ (DNSRecord.pyEq a b = true → DNSRecord.pyHash a = DNSRecord.pyHash b)
    ∧ (∀ i j di dj,
        DNSRecord.pyEq { a with record_id := i, deleted := di }
            { b with record_id := j, deleted := dj }
          = DNSRecord.pyEq a b)
    ∧ (∀ i di,
        DNSRecord.pyHash { a with record_id := i, deleted := di }
          = DNSRecord.pyHash a) := by
  refine ⟨?_, ?_, ?_, ?_⟩
  · simp [DNSRecord.pyEq, DNSRecord.cmpkey, Prod.ext_iff]
  · intro h
    have hk : a.cmpkey = b.cmpkey := by
      simpa [DNSRecord.pyEq] using h
    simp [DNSRecord.pyHash, hk]
  · intro i j di dj
    simp [DNSRecord.pyEq, DNSRecord.cmpkey]
  · intro i di
    simp [DNSRecord.pyHash, DNSRecord.cmpkey]

/-- C6 witness: the iff, hash congruence and id/delete irrelevance at
concrete records (same tuple, different ids and delete flags). -/
theorem structural_equality_witness :
    (DNSRecord.pyEq
        { record_id := some 1, record_type := "A", hostname := "www",
          destination := "1.2.3.4" }
        { record_id := some 2, record_type := "A", hostname := "www",
          destination := "1.2.3.4" } = true ↔
      ("A" = "A" ∧ "www" = "www" ∧ "1.2.3.4" = "1.2.3.4" ∧
        (none : Option Int) = none))
    ∧ (DNSRecord.pyEq
        { record_id := some 1, record_type := "A", hostname := "www",
          destination := "1.2.3.4" }
        { record_id := some 2, record_type := "A", hostname := "www",
          destination := "1.2.3.4" } = true →
      DNSRecord.pyHash
        { record_id := some 1, record_type := "A", hostname := "www",
          destination := "1.2.3.4" }
        = DNSRecord.pyHash
        { record_id := some 2, record_type := "A", hostname := "www",
          destination := "1.2.3.4" })
    ∧ (∀ i j di dj,
        DNSRecord.pyEq
            { record_id := i, record_type := "A", hostname := "www",
              destination := "1.2.3.4", priority := none, deleted := di }
            { record_id := j, record_type := "A", hostname := "www",
              destination := "1.2.3.4", priority := none, deleted := dj }
          = DNSRecord.pyEq
            { record_id := some 1, record_type := "A", hostname := "www",
              destination := "1.2.3.4" }
            { record_id := some 2, record_type := "A", hostname := "www",
              destination := "1.2.3.4" })
    ∧ (∀ i di,
        DNSRecord.pyHash
            { record_id := i, record_type := "A", hostname := "www",
              destination := "1.2.3.4", priority := none, deleted := di }
          = DNSRecord.pyHash
            { record_id := some 1, record_type := "A", hostname := "www",
              destination := "1.2.3.4" }) :=
  structural_equality
    { record_id := some 1, record_type := "A", hostname := "www",
      destination := "1.2.3.4" }
    { record_id := some 2, record_type := "A", hostname := "www",
      destination := "1.2.3.4" }

/-- C7: delete_hostname keeps the domain name and maps each position of the
record list pointwise: a record whose hostname equals the argument gets its
delete flag set with every other field intact, and any other record is
returned unchanged. -/
theorem delete_hostname_frame (rs : DNSRecordSet) (hn : String) :
    (rs.delete_hostname hn).domainname = rs.domainname
    ∧ ∀ i : Nat, (rs.delete_hostname hn).records[i]? =
        (rs.records[i]?).map
          (fun (r : DNSRecord) =>
            if r.hostname = hn then { r with deleted := true } else r) := by
  constructor
  · rfl
  · intro i
    simp [DNSRecordSet.delete_hostname, DNSRecord.delete]

/-- C8: add with a DNSRecord appends it at the end and returns the updated
set itself; add with anything else fails the isinstance assertion, leaving
the set unchanged and returning nothing. -/
theorem add_contract (rs : DNSRecordSet) (r : DNSRecord) (v : JsonValue) :
    (rs.add (PyObject.record r)).state =
      { domainname := rs.domainname, records := rs.records ++ [r] }
    ∧ (rs.add (PyObject.record r)).returned =
        some (rs.add (PyObject.record r)).state
    ∧ (rs.add (PyObject.other v)).state = rs
    ∧ (rs.add (PyObject.other v)).returned = none :=
  ⟨rfl, rfl, rfl, rfl⟩

/-- C3: serialize yields the omit sentinel exactly for a deleted id-less
record; any emitted payload carries id, type, hostname, destination,
deleterecord (= the delete flag), a null state, and a priority key exactly
when the priority is set; the set-level serialize sends each record through
DNSRecord.serialize and keeps the non-omitted payloads in order under the
dnsrecords key. -/
theorem serialize_contract (r : DNSRecord) (rs : DNSRecordSet) :
    (r.serialize = none ↔ (r.deleted = true ∧ r.record_id = none))
    ∧ (∀ p, r.serialize = some p →
        List.lookup "id" p = some (JsonValue.ofOptInt r.record_id)
        ∧ List.lookup "type" p = some (JsonValue.str r.record_type)
        ∧ List.lookup "hostname" p = some (JsonValue.str r.hostname)
        ∧ List.lookup "destination" p = some (JsonValue.str r.destination)
        ∧ List.lookup "deleterecord" p = some (JsonValue.bool r.deleted)
        ∧ List.lookup "state" p = some JsonValue.null
        ∧ List.lookup "priority" p = Option.map JsonValue.int r.priority)
    ∧ rs.serialize = [("dnsrecords", rs.records.filterMap DNSRecord.serialize)] := by
  refine ⟨?_, ?_, ?_⟩
  · by_cases h : r.deleted = true ∧ r.record_id = none <;>
      simp [DNSRecord.serialize, h]
  · intro p hp
    have h : ¬ (r.deleted = true ∧ r.record_id = none) := by
      intro h
      simp [DNSRecord.serialize, h] at hp
    rw [DNSRecord.serialize, if_neg (by simpa using h)] at hp
    cases hp
    cases hpr : r.priority <;> simp +decide [List.lookup, hpr]
  · simp [DNSRecordSet.serialize, List.filterMap_map]

/-- C3 witness: the contract instantiated at a deleted record that has an
id (emitted with deleterecord true) inside a set that also holds a deleted
id-less record (omitted from the payload). -/
theorem serialize_contract_witness :
    ((DNSRecord.serialize
        { record_id := some 7, record_type := "MX", hostname := "@",
          destination := "mail.example.com", priority := some 10,
          deleted := true } = none) ↔
      (true = true ∧ some 7 = none))
    ∧ (∀ p, DNSRecord.serialize
        { record_id := some 7, record_type := "MX", hostname := "@",
          destination := "mail.example.com", priority := some 10,
          deleted := true } = some p →
        List.lookup "id" p = some (JsonValue.ofOptInt (some 7))
        ∧ List.lookup "type" p = some (JsonValue.str "MX")
        ∧ List.lookup "hostname" p = some (JsonValue.str "@")
        ∧ List.lookup "destination" p = some (JsonValue.str "mail.example.com")
        ∧ List.lookup "deleterecord" p = some (JsonValue.bool true)
        ∧ List.lookup "state" p = some JsonValue.null
        ∧ List.lookup "priority" p = Option.map JsonValue.int (some 10))
    ∧ DNSRecordSet.serialize
        { domainname := "example.com",
          records :=
            [{ record_id := some 7, record_type := "MX", hostname := "@",
               destination := "mail.example.com", priority := some 10,
               deleted := true },
             { record_id := none, record_type := "A", hostname := "www",
               destination := "1.2.3.4", deleted := true }] }
      = [("dnsrecords",
          List.filterMap DNSRecord.serialize
            [{ record_id := some 7, record_type := "MX", hostname := "@",
               destination := "mail.example.com", priority := some 10,
               deleted := true },
             { record_id := none, record_type := "A", hostname := "www",
               destination := "1.2.3.4", deleted := true }])] := by
  simpa using serialize_contract
    { record_id := some 7, record_type := "MX", hostname := "@",
      destination := "mail.example.com", priority := some 10, deleted := true }
    { domainname := "example.com",
      records :=
        [{ record_id := some 7, record_type := "MX", hostname := "@",
           destination := "mail.example.com", priority := some 10,
           deleted := true },
         { record_id := none, record_type := "A", hostname := "www",
           destination := "1.2.3.4", deleted := true }] }

/-- C10: serialize has no side effects: the statement-by-statement
state-threading translations of DNSRecord.serialize and
DNSRecordSet.serialize return the record and the set unchanged (every
field, the length and the order included), agree with the pure functions,
and a second call on the resulting state returns an equal payload. -/
theorem serialize_no_side_effects (r : DNSRecord) (rs : DNSRecordSet) :
    (DNSRecord.serializeSt r).1 = r
    ∧ (DNSRecord.serializeSt r).2 = r.serialize
    ∧ (DNSRecordSet.serializeSt rs).1 = rs
    ∧ (DNSRecordSet.serializeSt rs).2 = rs.serialize
    ∧ (DNSRecordSet.serializeSt (DNSRecordSet.serializeSt rs).1).2
        = (DNSRecordSet.serializeSt rs).2 := by
  have hfst : ∀ x : DNSRecord, (DNSRecord.serializeSt x).1 = x := by
    intro x
    unfold DNSRecord.serializeSt
    split <;> rfl
  have hsnd : ∀ x : DNSRecord, (DNSRecord.serializeSt x).2 = x.serialize := by
    intro x
    unfold DNSRecord.serializeSt DNSRecord.serialize
    split
    · rfl
    · cases x.priority <;> rfl
  have hmap1 : (rs.records.map DNSRecord.serializeSt).map Prod.fst = rs.records := by
    rw [List.map_map]
    conv_rhs => rw [← List.map_id rs.records]
    exact List.map_congr_left (fun x _ => hfst x)
  have hmap2 : (rs.records.map DNSRecord.serializeSt).map Prod.snd
      = rs.records.map DNSRecord.serialize := by
    rw [List.map_map]
    exact List.map_congr_left (fun x _ => hsnd x)
  have hset1 : (DNSRecordSet.serializeSt rs).1 = rs := by
    show { rs with records := (rs.records.map DNSRecord.serializeSt).map Prod.fst } = rs
    rw [hmap1]
  have hset2 : (DNSRecordSet.serializeSt rs).2 = rs.serialize := by
    show [("dnsrecords",
        ((rs.records.map DNSRecord.serializeSt).map Prod.snd).filterMap id)]
      = rs.serialize
    rw [hmap2]
    rfl
  exact ⟨hfst r, hsnd r, hset1, hset2, by rw [hset1]⟩

/-- C1 counterexample: the round trip does not reproduce every undeleted
record.  A record with no id serializes with a null id, on which the int()
call in deserialize raises (the composition yields no record at all), and
a record with priority 0 serializes with a priority key of 0, which
deserialize collapses to None. -/
theorem roundtrip_counterexamples :
    ¬ ((DNSRecord.serialize { record_id := none, record_type := "A", hostname := "www", destination := "1.2.3.4" }).bind DNSRecord.deserialize = some { record_id := none, record_type := "A", hostname := "www", destination := "1.2.3.4" })
    ∧ ¬ ((DNSRecord.serialize { record_id := some 5, record_type := "MX", hostname := "@", destination := "mail.example.com", priority := some 0 }).bind DNSRecord.deserialize = some { record_id := some 5, record_type := "MX", hostname := "@", destination := "mail.example.com", priority := some 0 }) := by
  refine ⟨?_, ?_⟩ <;> decide

/-- C1 amended: for every record with pendingDelete false whose id is set
and whose priority is not 0, deserializing the serialized payload
reproduces the record exactly (id, type, hostname, destination and
priority preserved); a wire priority of 0 deserializes to None and a None
priority serializes with the priority key absent, so those two cases are
excluded from the round trip. -/
theorem serialize_deserialize_roundtrip (r : DNSRecord)
    (hdel : r.deleted = false) (hid : r.record_id ≠ none)
    (hp : r.priority ≠ some 0) :
    (r.serialize).bind DNSRecord.deserialize = some r := by
  rcases r with ⟨id, t, hn, d, pr, del⟩
  simp only at hdel hid hp
  subst hdel
  rcases id with _ | n
  · exact absurd rfl hid
  rcases pr with _ | p
  · rfl
  · have hp0 : p ≠ 0 := fun e => hp (by rw [e])
    have h1 : (DNSRecord.serialize { record_id := some n, record_type := t, hostname := hn, destination := d, priority := some p, deleted := false }).bind DNSRecord.deserialize = some { record_id := some n, record_type := t, hostname := hn, destination := d, priority := if p = 0 then (none : Option Int) else some p, deleted := false } := rfl
    rw [h1, if_neg hp0]

/-- C1 witness: the round trip at a concrete undeleted record with an id
and a non-zero priority. -/
theorem serialize_deserialize_roundtrip_witness :
    ({ record_id := some 17, record_type := "MX", hostname := "@", destination := "mail.example.com", priority := some 20 } : DNSRecord).deleted = false
    ∧ ({ record_id := some 17, record_type := "MX", hostname := "@", destination := "mail.example.com", priority := some 20 } : DNSRecord).record_id ≠ none
    ∧ ({ record_id := some 17, record_type := "MX", hostname := "@", destination := "mail.example.com", priority := some 20 } : DNSRecord).priority ≠ some 0
    ∧ (DNSRecord.serialize { record_id := some 17, record_type := "MX", hostname := "@", destination := "mail.example.com", priority := some 20 }).bind DNSRecord.deserialize = some { record_id := some 17, record_type := "MX", hostname := "@", destination := "mail.example.com", priority := some 20 } :=
  ⟨rfl, by decide, by decide,
    serialize_deserialize_roundtrip
      { record_id := some 17, record_type := "MX", hostname := "@", destination := "mail.example.com", priority := some 20 }
      rfl (by decide) (by decide)⟩

/-- C4: whenever deserialize succeeds, the priority is None if the
priority key was absent and the int() value of the key with 0 collapsed to
None otherwise, the id is the int() value of the id key (string values
coerced), and the record is marked deleted exactly when the delete key is
truthy. -/
theorem deserialize_contract (data : Payload) (r : DNSRecord)
    (h : DNSRecord.deserialize data = some r) :
    (List.lookup "priority" data = none → r.priority = none)
    ∧ (∀ v p, List.lookup "priority" data = some v → pyInt v = some p →
        r.priority = (if p = 0 then none else some p))
    ∧ (∀ v n, List.lookup "id" data = some v → pyInt v = some n →
        r.record_id = some n)
    ∧ r.deleted = truthy (List.lookup "delete" data) := by
  unfold DNSRecord.deserialize at h
  rcases hpr : List.lookup "priority" data with _ | v0 <;> rw [hpr] at h <;>
    simp only [Option.pure_def, Option.bind_eq_bind, Option.bind_eq_some,
      Option.some.injEq] at h
  · obtain ⟨prio, hprio, idv, hid, idn, hpi, tv, ht, ts, hts, hv, hh, hs, hhs,
      dv, hd, ds, hds, hr⟩ := h
    subst hprio
    subst hr
    refine ⟨fun _ => ?_, fun v p hv2 _ => ?_, fun v n hv2 hp2 => ?_, ?_⟩
    · cases htr : truthy (List.lookup "delete" data) <;>
        simp [htr, DNSRecord.delete]
    · exact Option.noConfusion hv2
    · rw [hid] at hv2
      obtain rfl : idv = v := Option.some.inj hv2
      rw [hpi] at hp2
      obtain rfl : idn = n := Option.some.inj hp2
      cases htr : truthy (List.lookup "delete" data) <;>
        simp [htr, DNSRecord.delete]
    · cases htr : truthy (List.lookup "delete" data) <;>
        simp [htr, DNSRecord.delete]
  · obtain ⟨p0, hp0, prio, hprioeq, idv, hid, idn, hpi, tv, ht, ts, hts, hv, hh,
      hs, hhs, dv, hd, ds, hds, hr⟩ := h
    subst hprioeq
    subst hr
    refine ⟨fun he => ?_, fun v p hv2 hp2 => ?_, fun v n hv2 hp2 => ?_, ?_⟩
    · exact Option.noConfusion he
    · obtain rfl : v0 = v := Option.some.inj hv2
      rw [hp0] at hp2
      obtain rfl : p0 = p := Option.some.inj hp2
      cases htr : truthy (List.lookup "delete" data) <;>
        simp [htr, DNSRecord.delete]
    · rw [hid] at hv2
      obtain rfl : idv = v := Option.some.inj hv2
      rw [hpi] at hp2
      obtain rfl : idn = n := Option.some.inj hp2
      cases htr : truthy (List.lookup "delete" data) <;>
        simp [htr, DNSRecord.delete]
    · cases htr : truthy (List.lookup "delete" data) <;>
        simp [htr, DNSRecord.delete]

/-- C4 witness: the spec scenario.  The payload with string id "5" and
string priority "0" deserializes to a record with id 5 and priority None
(also through the set-level dnsrecords wrapper), and the contract holds at
this payload. -/
theorem deserialize_contract_witness :
    DNSRecord.deserialize [("id", JsonValue.str "5"), ("type", JsonValue.str "MX"), ("hostname", JsonValue.str "@"), ("destination", JsonValue.str "mail.example.com"), ("priority", JsonValue.str "0")] = some { record_id := some 5, record_type := "MX", hostname := "@", destination := "mail.example.com", priority := none }
    ∧ DNSRecordSet.deserialize "example.com" [("dnsrecords", [[("id", JsonValue.str "5"), ("type", JsonValue.str "MX"), ("hostname", JsonValue.str "@"), ("destination", JsonValue.str "mail.example.com"), ("priority", JsonValue.str "0")]])] = some { domainname := "example.com", records := [{ record_id := some 5, record_type := "MX", hostname := "@", destination := "mail.example.com", priority := none }] }
    ∧ ((List.lookup "priority" [("id", JsonValue.str "5"), ("type", JsonValue.str "MX"), ("hostname", JsonValue.str "@"), ("destination", JsonValue.str "mail.example.com"), ("priority", JsonValue.str "0")] = none → ({ record_id := some 5, record_type := "MX", hostname := "@", destination := "mail.example.com", priority := none } : DNSRecord).priority = none)
    ∧ (∀ v p, List.lookup "priority" [("id", JsonValue.str "5"), ("type", JsonValue.str "MX"), ("hostname", JsonValue.str "@"), ("destination", JsonValue.str "mail.example.com"), ("priority", JsonValue.str "0")] = some v → pyInt v = some p → ({ record_id := some 5, record_type := "MX", hostname := "@", destination := "mail.example.com", priority := none } : DNSRecord).priority = (if p = 0 then none else some p))
    ∧ (∀ v n, List.lookup "id" [("id", JsonValue.str "5"), ("type", JsonValue.str "MX"), ("hostname", JsonValue.str "@"), ("destination", JsonValue.str "mail.example.com"), ("priority", JsonValue.str "0")] = some v → pyInt v = some n → ({ record_id := some 5, record_type := "MX", hostname := "@", destination := "mail.example.com", priority := none } : DNSRecord).record_id = some n)
    ∧ ({ record_id := some 5, record_type := "MX", hostname := "@", destination := "mail.example.com", priority := none } : DNSRecord).deleted = truthy (List.lookup "delete" [("id", JsonValue.str "5"), ("type", JsonValue.str "MX"), ("hostname", JsonValue.str "@"), ("destination", JsonValue.str "mail.example.com"), ("priority", JsonValue.str "0")])) :=
  ⟨by decide, by decide,
    deserialize_contract
      [("id", JsonValue.str "5"), ("type", JsonValue.str "MX"), ("hostname", JsonValue.str "@"), ("destination", JsonValue.str "mail.example.com"), ("priority", JsonValue.str "0")]
      { record_id := some 5, record_type := "MX", hostname := "@", destination := "mail.example.com", priority := none }
      (by decide)⟩

/-- C2: the code contradicts the claimed error handling.  With HTTP 200
and an application status other than the success value, update_dns_records
returns the deserialized set instead of raising; with HTTP 500 and a
failing application status it also returns; the raise branch is reached
only when the HTTP status is not 200 AND the application status is ok --
the source condition is inverted. -/
theorem update_dns_records_inverted_condition :
    NetcupConnection.update_dns_records { session_id := some "sid" } { domainname := "example.com" } { status := 200, dataStatus := "error", longmessage := "update failed", responsedata := [("dnsrecords", [])] } = PyResult.ok { domainname := "example.com", records := [] }
    ∧ NetcupConnection.update_dns_records { session_id := some "sid" } { domainname := "example.com" } { status := 500, dataStatus := "error", longmessage := "server error", responsedata := [("dnsrecords", [])] } = PyResult.ok { domainname := "example.com", records := [] }
    ∧ NetcupConnection.update_dns_records { session_id := some "sid" } { domainname := "example.com" } { status := 500, dataStatus := "ok", longmessage := "", responsedata := [("dnsrecords", [])] } = PyResult.raised (PyExc.serverResponseError "Unable to update DNS records:") := by
  refine ⟨?_, ?_, ?_⟩ <;> decide

/-- C9 counterexample: invoked without a session, info_dns_records does
not quietly yield no result: subscripting the None that _session_action
returned raises a TypeError to the caller. -/
theorem info_dns_records_unauth_raises :
    NetcupConnection.info_dns_records { session_id := none } "example.com" { status := 200, dataStatus := "success", longmessage := "", responsedata := [("dnsrecords", [])] } = PyResult.raised PyExc.typeError := by
  decide

/-- C9 amended: without a session id, _session_action prints the local
warning and returns no result, so the operations that return its result
directly (logout, list_all_domains) yield no result without raising; the
operations that inspect the response, info_dns_records and
update_dns_records among them, instead raise a TypeError. -/
theorem unauth_session_behaviour (conn : NetcupConnection) (resp : ApiResponse)
    (h : conn.session_id = none) :
    conn.session_action resp = (true, none)
    ∧ conn.logout resp = (true, none)
    ∧ conn.list_all_domains resp = (true, none)
    ∧ (∀ d, conn.info_dns_records d resp = PyResult.raised PyExc.typeError)
    ∧ (∀ rs, conn.update_dns_records rs resp = PyResult.raised PyExc.typeError) := by
  rcases conn with ⟨sid⟩
  simp only at h
  subst h
  exact ⟨rfl, rfl, rfl, fun d => rfl, fun rs => rfl⟩

/-- C9 witness: the amended behaviour at a fresh (never logged in)
connection and a concrete response. -/
theorem unauth_session_behaviour_witness :
    ({ session_id := none } : NetcupConnection).session_id = none
    ∧ (NetcupConnection.session_action { session_id := none } { status := 200, dataStatus := "success", longmessage := "", responsedata := [("dnsrecords", [])] } = (true, none)
    ∧ NetcupConnection.logout { session_id := none } { status := 200, dataStatus := "success", longmessage := "", responsedata := [("dnsrecords", [])] } = (true, none)
    ∧ NetcupConnection.list_all_domains { session_id := none } { status := 200, dataStatus := "success", longmessage := "", responsedata := [("dnsrecords", [])] } = (true, none)
    ∧ (∀ d, NetcupConnection.info_dns_records { session_id := none } d { status := 200, dataStatus := "success", longmessage := "", responsedata := [("dnsrecords", [])] } = PyResult.raised PyExc.typeError)
    ∧ (∀ rs, NetcupConnection.update_dns_records { session_id := none } rs { status := 200, dataStatus := "success", longmessage := "", responsedata := [("dnsrecords", [])] } = PyResult.raised PyExc.typeError)) :=
  ⟨rfl, unauth_session_behaviour { session_id := none } { status := 200, dataStatus := "success", longmessage := "", responsedata := [("dnsrecords", [])] } rfl⟩

end Dnssync
